import Mathlib

/-!
Formal model of pyvivado's project-open logic, test-input change detection,
and hardware-monitor connection loops, shallowly embedded from the Python
source (vivado_project.py, filetestbench_project.py, redis_connection.py).
-/

namespace Pyvivado

/-- Project parameters persisted in params.txt: the part and board values
handled by VivadoProject.__init__.  Either may be Python None, modelled as
Option. -/
structure Params where
  part : Option String
  board : Option String
  deriving DecidableEq, Repr

/-- Observable on-disk state of one vivado project directory.
dirExists models os.path.exists(self.directory); xprExists models
os.path.exists(self.filename) for TheProject.xpr; storedParams models the
contents read and written through params_helper.ParamsHelper (spec 4.1:
reading a missing store returns absent, writing overwrites); storedHash
models the persisted content fingerprint managed by hash_helper.HashHelper
(spec 4.2). -/
structure FS where
  dirExists : Bool
  xprExists : Bool
  storedParams : Option Params
  storedHash : Option Nat
  deriving DecidableEq, Repr

/-- Modelled from the spec: hash_helper.HashHelper.is_changed is not part of
the source excerpt.  Spec 4.2: is_changed reports changed when no prior hash
has been persisted, and otherwise compares the persisted hash against the
freshly computed one. -/
def is_changed (stored : Option Nat) (current : Nat) : Bool :=
  match stored with
  | none => true
  | some h => !(h == current)

/-- Exceptions raised by VivadoProject.__init__, one constructor per raise
site (lines 39, 56, 61 and 67 of vivado_project.py). -/
inductive VErr where
  | corruptProject
  | paramsConflict
  | noParams
  | staleHash
  deriving DecidableEq, Repr

/-- Result of a successful VivadoProject.__init__: the final directory
state, whether launch_create_task was invoked, the refresh flag, the
self.new flag, and the part and board attributes set on the object. -/
structure InitResult where
  fs : FS
  launched : Bool
  refresh : Bool
  new : Bool
  part : Option String
  board : Option String
  deriving DecidableEq, Repr

/-- Shallow embedding of VivadoProject.__init__ (vivado_project.py lines
32-78).  Takes the observable directory state, the caller-supplied part,
board and overwrite_ok arguments, and the freshly computed content hash
(self.project.get_hash); returns the outcome together with the directory
state at the moment the call returns, which is the unchanged input state
when an exception is raised.  shutil.rmtree is modelled as clearing every
flag and persisted file of the directory; the subsequent os.mkdir,
params_helper.write and hash_helper.write recreate the directory with the
new parameters and the current hash persisted.  TheProject.xpr does not yet
exist when the call returns because the creation task runs asynchronously. -/
def vivadoProjectInit (fs : FS) (part0 board0 : Option String)
    (overwrite_ok : Bool) (currentHash : Nat) :
    Except VErr InitResult × FS :=
  let new := !fs.dirExists
  if !new && !fs.xprExists then
    (Except.error VErr.corruptProject, fs)
  else
    let old_params := fs.storedParams
    let part : Option String :=
      match old_params, part0 with
      | some p, none => p.part
      | _, _ => part0
    let board : Option String :=
      match old_params, board0 with
      | some p, none => p.board
      | _, _ => board0
    let new_params : Params := { part := part, board := board }
    let conflictCheck : Except VErr Bool :=
      match old_params with
      | some op =>
        if !(op == new_params) then
          if !overwrite_ok then Except.error VErr.paramsConflict
          else Except.ok true
        else Except.ok false
      | none =>
        if !new then Except.error VErr.noParams else Except.ok false
    match conflictCheck with
    | Except.error e => (Except.error e, fs)
    | Except.ok refresh0 =>
      let hashCheck : Except VErr Bool :=
        if !new && is_changed fs.storedHash currentHash then
          if !overwrite_ok then Except.error VErr.staleHash
          else Except.ok true
        else Except.ok refresh0
      match hashCheck with
      | Except.error e => (Except.error e, fs)
      | Except.ok refresh =>
        let fsAfterRm : FS :=
          if refresh then
            { dirExists := false, xprExists := false,
              storedParams := none, storedHash := none }
          else fs
        if new || refresh then
          let fsFinal : FS :=
            { dirExists := true, xprExists := false,
              storedParams := some new_params,
              storedHash := some currentHash }
          (Except.ok { fs := fsFinal, launched := true, refresh := refresh,
                       new := new, part := part, board := board }, fsFinal)
        else
          (Except.ok { fs := fsAfterRm, launched := false, refresh := refresh,
                       new := new, part := part, board := board }, fsAfterRm)

/-- File names used by FileTestBenchProject.update_input_data inside a
test's directory. -/
def inputName : String := "input.data"

/-- Name of the rotated previous input file. -/
def oldInputName : String := "old_input.data"

/-- One observable filesystem operation performed by
FileTestBenchProject.update_input_data, recorded in program order. -/
inductive FileOp where
  | mkdirDir
  | removeFile (name : String)
  | renameFile (src dst : String)
  | writeFile (name : String) (data : List Nat)
  | compareFiles (a b : String)
  deriving DecidableEq, Repr

/-- Observable state of one test's directory inside the project:
whether the directory exists, and the byte contents of input.data and
old_input.data when those files exist. -/
structure TestDir where
  dirExists : Bool
  input : Option (List Nat)
  oldInput : Option (List Nat)
  deriving DecidableEq, Repr

/-- Shallow embedding of FileTestBenchProject.update_input_data
(filetestbench_project.py lines 80-98).  interface.write_input_file is
repository code outside the excerpt; modelled from the spec (4.6, "writes
fresh data to current"): it writes the payload bytes to the named file.
filecmp.cmp is byte comparison of the two files' contents.  Returns the
is_changed result, the final directory state, and the list of filesystem
operations in the order the source performs them. -/
def update_input_data (st : TestDir) (input_data : List Nat) :
    Bool × TestDir × List FileOp :=
  let s1 : TestDir × List FileOp :=
    if st.dirExists then (st, [])
    else ({ st with dirExists := true }, [FileOp.mkdirDir])
  let s2 : TestDir × List FileOp :=
    if s1.1.oldInput.isSome then
      ({ s1.1 with oldInput := none }, [FileOp.removeFile oldInputName])
    else (s1.1, [])
  let s3 : TestDir × List FileOp :=
    if s2.1.input.isSome then
      ({ s2.1 with input := none, oldInput := s2.1.input },
        [FileOp.renameFile inputName oldInputName])
    else (s2.1, [])
  let st4 : TestDir := { s3.1 with input := some input_data }
  let s5 : Bool × List FileOp :=
    match st4.oldInput with
    | some old =>
      (!(input_data == old), [FileOp.compareFiles inputName oldInputName])
    | none => (true, [])
  (s5.1, st4,
    s1.2 ++ s2.2 ++ s3.2 ++ [FileOp.writeFile inputName input_data] ++ s5.2)

/-- Selects the write operations out of an update_input_data trace, used to
examine which file names get written. -/
def writeOps (ops : List FileOp) : List FileOp :=
  ops.filter (fun op =>
    match op with
    | FileOp.writeFile _ _ => true
    | _ => false)

/-- Byte value of the character R, as ord returns it in the source. -/
def ordR : Nat := Char.toNat 'R'

/-- Shallow embedding of the acceptance test in
Connection.wait_for_response (redis_connection.py line 50): the first byte
of the redis value equals ord of the character R.  On an empty value the
indexing itself raises IndexError in the source before any comparison;
waitGo models that raise, so the nil case here is never reached by the
loop and an empty value is in particular never accepted. -/
def response_accepted (resp : List Nat) : Bool :=
  match resp with
  | b :: _ => b == ordR
  | [] => false

/-- Follows the spec's words (section 6): a response is accepted once its
first whitespace-delimited token is the literal R.  Declared only to
compare against response_accepted, which is translated from the source. -/
def spec_accepted (resp : List Nat) : Bool :=
  (resp.dropWhile (fun b => b == 32)).takeWhile (fun b => !(b == 32)) == [ordR]

/-- Exception raised by indexing an empty redis value at
redis_connection.py line 50. -/
def indexErrMsg : String := "IndexError"

/-- Polling loop of Connection.wait_for_response (redis_connection.py lines
44-55) over the stream of redis values vals, where vals i is the byte
string read at the i-th poll.  fuel is the number of polls the timeout
still allows (timeout divided by the fixed 0.1 second wait).  Each
iteration first indexes response[0]: on an empty value that raises
IndexError, aborting the call, modelled as the error outcome (a missing
key, where the source's r.get returns None and indexing raises TypeError,
is outside the stream domain).  Otherwise the first byte is compared
against ord of R; the accepted response is returned, and when the deadline
passes first the result is ok none, where the source returns the last,
unaccepted, read instead. -/
def waitGo (vals : Nat → List Nat) (i : Nat) :
    Nat → Except String (Option (List Nat))
  | 0 => Except.ok none
  | fuel + 1 =>
    match vals i with
    | [] => Except.error indexErrMsg
    | b :: bs =>
      if response_accepted (b :: bs) then Except.ok (some (b :: bs))
      else waitGo vals (i + 1) fuel

/-- Exception message raised by Connection.kill_monitor. -/
def killFailMsg : String := "Failed to kill monitor."

/-- While loop of Connection.kill_monitor (redis_connection.py lines
36-39): counter starts at 0 and the loop runs while counter is below the
time limit and the monitor polls alive, sleeping one second and adding one
to counter each iteration.  alive k is the liveness poll one second apart;
fuel is the remaining limit minus counter, so the loop is entered with fuel
equal to the limit.  Returns the final counter. -/
def killGo (alive : Nat → Bool) (counter : Nat) : Nat → Nat
  | 0 => counter
  | fuel + 1 =>
    if alive counter then killGo alive (counter + 1) fuel
    else counter

/-- Shallow embedding of Connection.kill_monitor (redis_connection.py lines
34-41).  The liveness predicate is_monitor_alive delegates to
redis_utils.hwcode_A_active, repository code outside the excerpt; modelled
from the spec (section 5, "poll a liveness predicate") as the abstract
time-indexed predicate alive.  After the loop the source polls once more
and raises when the monitor is still alive; on success the final counter is
returned. -/
def kill_monitor (alive : Nat → Bool) (time_limit : Nat) :
    Except String Nat :=
  let c := killGo alive 0 time_limit
  if alive c then Except.error killFailMsg else Except.ok c

/-- C4: when the project directory exists but TheProject.xpr is missing,
VivadoProject.__init__ raises the corrupt-project exception for every
combination of supplied parameters and override permission, and the
directory state is left untouched: no rebuild is attempted on that path. -/
theorem C4_corrupt_marker (fs : FS) (part0 board0 : Option String)
    (ow : Bool) (h : Nat)
    (hdir : fs.dirExists = true) (hxpr : fs.xprExists = false) :
    vivadoProjectInit fs part0 board0 ow h =
      (Except.error VErr.corruptProject, fs) := by
  obtain ⟨fd, fx, fp, fh⟩ := fs
  simp only at hdir hxpr
  subst hdir hxpr
  simp [vivadoProjectInit]

/-- C4 witness at a concrete corrupt directory, with override permitted. -/
theorem C4_witness :
    vivadoProjectInit ⟨true, false, some ⟨some "a", some "b"⟩, some 0⟩
        (some "a") (some "b") true 0 =
      (Except.error VErr.corruptProject,
       ⟨true, false, some ⟨some "a", some "b"⟩, some 0⟩) :=
  C4_corrupt_marker ⟨true, false, some ⟨some "a", some "b"⟩, some 0⟩
    (some "a") (some "b") true 0 rfl rfl

/-- C5: whenever VivadoProject.__init__ raises, the directory state at the
moment of the raise equals the initial state: every raise site runs before
shutil.rmtree, so a failed open never leaves the directory partially
deleted or partially rebuilt. -/
theorem C5_error_preserves_dir (fs : FS) (part0 board0 : Option String)
    (ow : Bool) (h : Nat) (e : VErr)
    (herr : (vivadoProjectInit fs part0 board0 ow h).1 = Except.error e) :
    (vivadoProjectInit fs part0 board0 ow h).2 = fs := by
  revert herr
  simp only [vivadoProjectInit]
  split
  · intro; rfl
  · split
    · intro; rfl
    · split
      · intro; rfl
      · split <;> simp

/-- C5 witness at a concrete stale project opened without override. -/
theorem C5_witness :
    (vivadoProjectInit ⟨true, true, some ⟨some "a", some "b"⟩, some 0⟩
        none none false 1).2 =
      ⟨true, true, some ⟨some "a", some "b"⟩, some 0⟩ :=
  C5_error_preserves_dir ⟨true, true, some ⟨some "a", some "b"⟩, some 0⟩
    none none false 1 VErr.staleHash rfl

/-- C1: opening an existing, marker-valid project with readable persisted
parameters and no explicit part or board argument, while the freshly
computed content fingerprint mismatches the persisted one, fails with the
staleness error when override is not permitted; with override it rebuilds
instead of failing: the directory is deleted and recreated with the new
fingerprint persisted and the creation task launched. -/
theorem C1_stale_mismatch (fs : FS) (p : Params) (h : Nat)
    (hdir : fs.dirExists = true) (hxpr : fs.xprExists = true)
    (hparams : fs.storedParams = some p)
    (hstale : is_changed fs.storedHash h = true) :
    (vivadoProjectInit fs none none false h).1 =
      Except.error VErr.staleHash ∧
    (vivadoProjectInit fs none none true h).1 =
      Except.ok { fs := { dirExists := true, xprExists := false,
                          storedParams := some p, storedHash := some h },
                  launched := true, refresh := true, new := false,
                  part := p.part, board := p.board } := by
  obtain ⟨fd, fx, fp, fh⟩ := fs
  simp only at hdir hxpr hparams hstale
  subst hdir hxpr hparams
  obtain ⟨pa, pb⟩ := p
  simp [vivadoProjectInit, hstale]

/-- C1 witness at a concrete stale project. -/
theorem C1_witness :
    (vivadoProjectInit ⟨true, true, some ⟨some "a", some "b"⟩, some 0⟩
        none none false 1).1 = Except.error VErr.staleHash ∧
    (vivadoProjectInit ⟨true, true, some ⟨some "a", some "b"⟩, some 0⟩
        none none true 1).1 =
      Except.ok { fs := { dirExists := true, xprExists := false,
                          storedParams := some ⟨some "a", some "b"⟩,
                          storedHash := some 1 },
                  launched := true, refresh := true, new := false,
                  part := some "a", board := some "b" } :=
  C1_stale_mismatch ⟨true, true, some ⟨some "a", some "b"⟩, some 0⟩
    ⟨some "a", some "b"⟩ 1 rfl rfl rfl rfl

/-- C2: opening an existing, marker-valid project whose persisted
parameters p1 differ from the fully supplied pair pt, bd fails with the
parameter-conflict error when override is not permitted, and with override
the directory state after the open persists exactly the supplied pair. -/
theorem C2_param_conflict (fs : FS) (p1 : Params) (pt bd : String) (h : Nat)
    (hdir : fs.dirExists = true) (hxpr : fs.xprExists = true)
    (hparams : fs.storedParams = some p1)
    (hne : p1 ≠ { part := some pt, board := some bd }) :
    (vivadoProjectInit fs (some pt) (some bd) false h).1 =
      Except.error VErr.paramsConflict ∧
    (vivadoProjectInit fs (some pt) (some bd) true h).2.storedParams =
      some { part := some pt, board := some bd } := by
  obtain ⟨fd, fx, fp, fh⟩ := fs
  simp only at hdir hxpr hparams
  subst hdir hxpr hparams
  have hb : (p1 == ({ part := some pt, board := some bd } : Params)) = false :=
    beq_eq_false_iff_ne.mpr hne
  simp [vivadoProjectInit, hb]

/-- C2 witness at a concrete parameter conflict. -/
theorem C2_witness :
    (vivadoProjectInit ⟨true, true, some ⟨some "a", some "b"⟩, some 0⟩
        (some "c") (some "d") false 0).1 =
      Except.error VErr.paramsConflict ∧
    (vivadoProjectInit ⟨true, true, some ⟨some "a", some "b"⟩, some 0⟩
        (some "c") (some "d") true 0).2.storedParams =
      some { part := some "c", board := some "d" } :=
  C2_param_conflict ⟨true, true, some ⟨some "a", some "b"⟩, some 0⟩
    ⟨some "a", some "b"⟩ "c" "d" 0 rfl rfl rfl (by decide)

/-- Helper: launch_create_task is invoked exactly when the self.new flag or
the refresh flag is set. -/
theorem vivadoInit_launched_iff (fs : FS) (part0 board0 : Option String)
    (ow : Bool) (h : Nat) (r : InitResult)
    (hr : (vivadoProjectInit fs part0 board0 ow h).1 = Except.ok r) :
    r.launched = (r.new || r.refresh) := by
  revert hr
  simp only [vivadoProjectInit]
  split
  · simp
  · split
    · simp
    · split
      · simp
      · split <;> intro hr <;> obtain rfl : _ = r := Except.ok.inj hr <;>
          simp_all

/-- C3: re-opening an existing, marker-valid project while supplying
exactly the persisted part and board and with an unchanged content
fingerprint succeeds without launching the creation task and leaves the
directory state untouched, for either override setting; and in general the
creation task is launched exactly when the open saw a new directory or
triggered a refresh. -/
theorem C3_no_resubmission (fs : FS) (p : Params) (ow : Bool) (h : Nat)
    (hdir : fs.dirExists = true) (hxpr : fs.xprExists = true)
    (hparams : fs.storedParams = some p)
    (hhash : is_changed fs.storedHash h = false) :
    (vivadoProjectInit fs p.part p.board ow h).1 =
      Except.ok { fs := fs, launched := false, refresh := false,
                  new := false, part := p.part, board := p.board } ∧
    (∀ gs q0 b0 o0 g r, (vivadoProjectInit gs q0 b0 o0 g).1 = Except.ok r →
      r.launched = (r.new || r.refresh)) := by
  refine ⟨?_, fun gs q0 b0 o0 g r hr => vivadoInit_launched_iff gs q0 b0 o0 g r hr⟩
  obtain ⟨fd, fx, fp, fh⟩ := fs
  simp only at hdir hxpr hparams hhash
  subst hdir hxpr hparams
  obtain ⟨pa, pb⟩ := p
  cases pa <;> cases pb <;> simp_all [vivadoProjectInit]

/-- C3 witness at a concrete unchanged project re-opened with its stored
parameters. -/
theorem C3_witness :
    (vivadoProjectInit ⟨true, true, some ⟨some "a", some "b"⟩, some 5⟩
        (some "a") (some "b") false 5).1 =
      Except.ok { fs := ⟨true, true, some ⟨some "a", some "b"⟩, some 5⟩,
                  launched := false, refresh := false, new := false,
                  part := some "a", board := some "b" } ∧
    (∀ gs q0 b0 o0 g r, (vivadoProjectInit gs q0 b0 o0 g).1 = Except.ok r →
      r.launched = (r.new || r.refresh)) :=
  C3_no_resubmission ⟨true, true, some ⟨some "a", some "b"⟩, some 5⟩
    ⟨some "a", some "b"⟩ false 5 rfl rfl rfl rfl

/-- C10: opening an existing, marker-valid project with readable persisted
parameters while supplying part and board as None inherits the persisted
values, and the parameter-conflict raise is unreachable on that path for
every override setting and fingerprint value. -/
theorem C10_inherit_params (fs : FS) (p : Params) (ow : Bool) (h : Nat)
    (hdir : fs.dirExists = true) (hxpr : fs.xprExists = true)
    (hparams : fs.storedParams = some p) :
    (vivadoProjectInit fs none none ow h).1 ≠
      Except.error VErr.paramsConflict ∧
    (∀ r, (vivadoProjectInit fs none none ow h).1 = Except.ok r →
      r.part = p.part ∧ r.board = p.board) := by
  obtain ⟨fd, fx, fp, fh⟩ := fs
  simp only at hdir hxpr hparams
  subst hdir hxpr hparams
  obtain ⟨pa, pb⟩ := p
  cases hc : is_changed fh h <;> cases ow <;>
    simp_all [vivadoProjectInit]

/-- C10 witness: a concrete existing project opened with no parameters. -/
theorem C10_witness :
    ((vivadoProjectInit ⟨true, true, some ⟨some "a", some "b"⟩, some 0⟩
        none none false 0).1 ≠ Except.error VErr.paramsConflict) ∧
    (∀ r, (vivadoProjectInit ⟨true, true, some ⟨some "a", some "b"⟩, some 0⟩
        none none false 0).1 = Except.ok r →
      r.part = some "a" ∧ r.board = some "b") :=
  C10_inherit_params ⟨true, true, some ⟨some "a", some "b"⟩, some 0⟩
    ⟨some "a", some "b"⟩ false 0 rfl rfl rfl

/-- C6: update_input_data returns changed = true on the first call for a
test name (no input.data present yet), returns false when called again
with bytes identical to the previously written input, and returns true
when called again with different bytes. -/
theorem C6_change_detection (st0 st : TestDir) (d d2 : List Nat)
    (hfirst : st0.input = none) (hne : d2 ≠ d) :
    (update_input_data st0 d).1 = true ∧
    (update_input_data (update_input_data st d).2.1 d).1 = false ∧
    (update_input_data (update_input_data st d).2.1 d2).1 = true := by
  have hb : (d2 == d) = false := beq_eq_false_iff_ne.mpr hne
  obtain ⟨dir0, inp0, old0⟩ := st0
  simp only at hfirst
  subst hfirst
  obtain ⟨ds, is, os⟩ := st
  refine ⟨?_, ?_, ?_⟩ <;>
    cases dir0 <;> cases old0 <;> cases ds <;> cases is <;> cases os <;>
      simp [update_input_data, hb]

/-- C6 witness with the payloads AAAA then BBBB of the spec scenario. -/
theorem C6_witness :
    (update_input_data ⟨false, none, none⟩ [65, 65, 65, 65]).1 = true ∧
    (update_input_data
      (update_input_data ⟨true, some [65, 65, 65, 65], none⟩
        [66, 66, 66, 66]).2.1 [66, 66, 66, 66]).1 = false ∧
    (update_input_data
      (update_input_data ⟨true, some [65, 65, 65, 65], none⟩
        [66, 66, 66, 66]).2.1 [65, 65, 65, 65]).1 = true :=
  C6_change_detection ⟨false, none, none⟩
    ⟨true, some [65, 65, 65, 65], none⟩ [66, 66, 66, 66] [65, 65, 65, 65]
    rfl (by decide)

/-- C7 counterexample: at a concrete call on a directory that already holds
a current input, the only write operation in the trace targets input.data
itself, and the full trace is rename current to old, write current, compare
current against old.  No write to a temp or staging name ever occurs, and
the one write happens after the rotation, contradicting the claimed
write-staging-then-rotate sequence. -/
theorem C7_counterexample :
    writeOps (update_input_data ⟨true, some [65], none⟩ [66]).2.2 =
      [FileOp.writeFile inputName [66]] ∧
    (update_input_data ⟨true, some [65], none⟩ [66]).2.2 =
      [FileOp.renameFile inputName oldInputName,
       FileOp.writeFile inputName [66],
       FileOp.compareFiles inputName oldInputName] :=
  ⟨rfl, rfl⟩

/-- C7 amended: on a directory holding a current input, update_input_data
removes any stale old file, renames the current file to old, writes the new
data directly to the current name with no temp or staging copy, then byte
compares current against old and returns whether they differ; the
comparison is therefore always against the immediately prior accepted
input. -/
theorem C7_rotate_sequence (st : TestDir) (d old : List Nat)
    (hdir : st.dirExists = true) (hcur : st.input = some old) :
    update_input_data st d =
      (!(d == old),
       { dirExists := true, input := some d, oldInput := some old },
       (if st.oldInput.isSome then [FileOp.removeFile oldInputName]
        else []) ++
       [FileOp.renameFile inputName oldInputName,
        FileOp.writeFile inputName d,
        FileOp.compareFiles inputName oldInputName]) := by
  obtain ⟨ds, is, os⟩ := st
  simp only at hdir hcur
  subst hdir hcur
  cases os <;> simp [update_input_data]

/-- C7 witness at a concrete state with both a current and an old file. -/
theorem C7_witness :
    update_input_data ⟨true, some [65], some [67]⟩ [66] =
      (!([66] == [65]),
       { dirExists := true, input := some [66], oldInput := some [65] },
       (if (some [67] : Option (List Nat)).isSome then
          [FileOp.removeFile oldInputName] else []) ++
       [FileOp.renameFile inputName oldInputName,
        FileOp.writeFile inputName [66],
        FileOp.compareFiles inputName oldInputName]) :=
  C7_rotate_sequence ⟨true, some [65], some [67]⟩ [66] [65] rfl rfl

/-- C8 counterexample: the source accepts the two-byte response RR, whose
first byte is R but whose first whitespace-delimited token is RR, not the
literal token R, so acceptance is not equivalent to the first token being
the literal R. -/
theorem C8_counterexample :
    response_accepted [ordR, ordR] = true ∧
    spec_accepted [ordR, ordR] = false := by
  refine ⟨rfl, ?_⟩
  decide

/-- Helper: a poll that reads an empty channel value makes the loop raise
IndexError immediately, as response[0] does in the source. -/
theorem waitGo_empty_raises (vals : Nat → List Nat) (i fuel : Nat)
    (hv : vals i = []) :
    waitGo vals i (fuel + 1) = Except.error indexErrMsg := by
  simp [waitGo, hv]

/-- Helper: the polling loop returns the value of the first accepted poll
when one occurs within the remaining fuel and every earlier poll read a
nonempty, unaccepted value. -/
theorem waitGo_first_accept (vals : Nat → List Nat) :
    ∀ k i fuel, response_accepted (vals (i + k)) = true →
      (∀ j, j < k → vals (i + j) ≠ [] ∧
        response_accepted (vals (i + j)) = false) →
      k < fuel → waitGo vals i fuel = Except.ok (some (vals (i + k))) := by
  intro k
  induction k with
  | zero =>
    intro i fuel hacc _ hfuel
    cases fuel with
    | zero => omega
    | succ f =>
      simp only [Nat.add_zero] at hacc ⊢
      cases hv : vals i with
      | nil => rw [hv] at hacc; simp [response_accepted] at hacc
      | cons b bs =>
        rw [hv] at hacc
        simp [waitGo, hv, hacc]
  | succ k ih =>
    intro i fuel hacc hbefore hfuel
    cases fuel with
    | zero => omega
    | succ f =>
      obtain ⟨hne0, hf0⟩ := hbefore 0 (Nat.succ_pos k)
      simp only [Nat.add_zero] at hne0 hf0
      cases hv : vals i with
      | nil => exact absurd hv hne0
      | cons b bs =>
        rw [hv] at hf0
        have hik : i + (k + 1) = (i + 1) + k := by omega
        rw [hik] at hacc ⊢
        simp only [waitGo, hv, hf0, Bool.false_eq_true, if_false]
        exact ih (i + 1) f hacc
          (fun j hj => by
            have := hbefore (j + 1) (by omega)
            have hshift : i + (j + 1) = (i + 1) + j := by omega
            rwa [hshift] at this)
          (by omega)

/-- C8 amended: a response passes the acceptance test of wait_for_response
exactly when its first byte is the byte value of R, and on a run whose
polls up to the first such response are nonempty (an empty poll value
instead raises IndexError and aborts the call, see waitGo and
waitGo_empty_raises) the loop stops at that first accepted poll and
returns its value. -/
theorem C8_first_byte_accept (vals : Nat → List Nat) (fuel i k b : Nat)
    (bs : List Nat)
    (hacc : response_accepted (vals (i + k)) = true)
    (hbefore : ∀ j, j < k → vals (i + j) ≠ [] ∧
      response_accepted (vals (i + j)) = false)
    (hfuel : k < fuel) :
    waitGo vals i fuel = Except.ok (some (vals (i + k))) ∧
    response_accepted (b :: bs) = (b == ordR) :=
  ⟨waitGo_first_accept vals k i fuel hacc hbefore hfuel, rfl⟩

/-- C8 witness on a stream whose first poll already answers with R. -/
theorem C8_witness :
    waitGo (fun _ => [ordR]) 0 1 =
      Except.ok (some ((fun _ => [ordR]) (0 + 0))) ∧
    response_accepted (ordR :: []) = (ordR == ordR) :=
  C8_first_byte_accept (fun _ => [ordR]) 1 0 0 ordR [] rfl
    (fun j hj => absurd hj (Nat.not_lt_zero j)) Nat.one_pos

/-- Helper: the kill loop increases the counter at most fuel times. -/
theorem killGo_le (alive : Nat → Bool) :
    ∀ fuel counter, killGo alive counter fuel ≤ counter + fuel := by
  intro fuel
  induction fuel with
  | zero => intro c; simp [killGo]
  | succ f ih =>
    intro c
    simp only [killGo]
    split
    · calc killGo alive (c + 1) f ≤ (c + 1) + f := ih (c + 1)
        _ = c + (f + 1) := by omega
    · omega

/-- Helper: while the monitor stays alive the loop runs its full fuel. -/
theorem killGo_all_alive (alive : Nat → Bool) :
    ∀ fuel counter, (∀ j, j < counter + fuel → alive j = true) →
      killGo alive counter fuel = counter + fuel := by
  intro fuel
  induction fuel with
  | zero => intro c _; simp [killGo]
  | succ f ih =>
    intro c hall
    have hc : alive c = true := hall c (by omega)
    simp only [killGo, hc, if_true]
    have := ih (c + 1) (fun j hj => hall j (by omega))
    omega

/-- C9: kill_monitor polls the liveness predicate once per one-second
counter step for at most the caller-supplied time limit (the loop counter
never exceeds the limit, so the call terminates for every finite limit),
and when the monitor is still alive through the limit it raises the
kill-failure exception instead of waiting longer. -/
theorem C9_kill_monitor_bound (alive : Nat → Bool) (time_limit : Nat)
    (halive : ∀ k, k ≤ time_limit → alive k = true) :
    killGo alive 0 time_limit ≤ time_limit ∧
    kill_monitor alive time_limit = Except.error killFailMsg := by
  constructor
  · simpa using killGo_le alive time_limit 0
  · have hrun : killGo alive 0 time_limit = time_limit := by
      have := killGo_all_alive alive time_limit 0
        (fun j hj => halive j (by omega))
      simpa using this
    simp [kill_monitor, hrun, halive time_limit (Nat.le_refl time_limit)]

/-- C9 witness against a monitor that never dies, with a three-second
limit. -/
theorem C9_witness :
    killGo (fun _ => true) 0 3 ≤ 3 ∧
    kill_monitor (fun _ => true) 3 = Except.error killFailMsg :=
  C9_kill_monitor_bound (fun _ => true) 3 (fun _ _ => rfl)

end Pyvivado
